import Mathlib

/-!
# Verification of the `dmoop` allocation pipeline

Shallow embedding of the `dynamic-moops` repository's core numeric pipeline
(`dmoop/linear/allocation.py`, `dmoop/base/construct.py`,
`dmoop/factors/nonlinear.py`) over exact rational arithmetic, together with
theorems settling the specification's claims about it.

Conventions of the embedding:

* numpy float arrays become functions `Fin n → ℚ` (1-D) or
  `Fin n → Fin q → ℚ` (2-D); the class `Linear2DAllocation` fixes the row
  count to 2, so its matrices are `Fin 2 → Fin q → ℚ`.
* Aggregation callables (`np.mean`, user methods) become functions
  `(Fin q → ℚ) → ℚ` applied to a row, exactly as
  `__describe_array__(x, method) = method(x)` does.
* The one division the source explicitly guards (`beta`'s
  `np.where(beta == np.inf, 0, beta)`) is modelled by an `Option ℚ` stage:
  `none` stands for the IEEE `+inf` produced by `1/0.0`, and the clamp is
  `Option.getD 0`.  All other divisions in the source are unguarded; there,
  Lean's `x / 0 = 0` convention stands in for the `inf`/`NaN` values numpy
  would produce, and theorems about those paths carry explicit
  non-vanishing hypotheses wherever the distinction matters.
-/

/-- `np.mean` on a 1-D array of length `q`: the sum divided by the length. -/
def npMean {q : ℕ} (x : Fin q → ℚ) : ℚ :=
  (∑ i, x i) / (q : ℚ)

/-- `np.round` on a scalar rounds half to even (banker's rounding). -/
def roundHalfEven (x : ℚ) : ℤ :=
  if x - ⌊x⌋ < 1 / 2 then ⌊x⌋
  else if x - ⌊x⌋ > 1 / 2 then ⌊x⌋ + 1
  else if 2 ∣ ⌊x⌋ then ⌊x⌋ else ⌊x⌋ + 1

/-- The `senses` argument of the constructors: either a bare scalar or a
sequence (list/tuple/ndarray), mirroring the `isinstance` dispatch in both
`BaseConstruct._senses` and `Linear2DAllocation._senses`. -/
inductive SensesArg where
  | scalar (v : ℚ)
  | vector (vs : List ℚ)
deriving DecidableEq

/-- `np.array(array, dtype=float)` accepts a 2-D list exactly when it is not
ragged: every row has the length of the first row. -/
def isRectangular : List (List ℚ) → Bool
  | [] => true
  | r :: rs => rs.all (fun s => s.length = r.length)

/-- The assertion message of `BaseConstruct._senses` (note the missing space
from the source's string concatenation). -/
def sensesMismatchMsg (cur ndim : ℕ) : String :=
  "Number of Senses (" ++ toString cur ++ ") must match" ++
    "the Number of Features (" ++ toString ndim ++ ")."

namespace BaseConstruct

/-- `BaseConstruct._senses` (`dmoop/base/construct.py`, lines 144-169): a
scalar is broadcast via `np.ones(xs.shape[0]) * senses`; a sequence is kept
as given; then `assert ndim_ == cur_` fails with a message reporting both the
received and the expected length.  `ndim` is `self.xs.shape[0]`. -/
def makeSenses (ndim : ℕ) (senses : SensesArg) : Except String (List ℚ) :=
  match senses with
  | .scalar v => .ok (List.replicate ndim v)
  | .vector vs =>
      if vs.length = ndim then .ok vs
      else .error (sensesMismatchMsg vs.length ndim)

end BaseConstruct

namespace Linear2DAllocation

/-- `Linear2DAllocation._xs` (`dmoop/linear/allocation.py`, lines 83-101):
`np.array(array, dtype=float)` rejects a ragged nested sequence with a
`ValueError`; then `assert array.shape[0] == 2` enforces exactly two
objective rows. -/
def validateXs (array : List (List ℚ)) : Except String (List (List ℚ)) :=
  if isRectangular array then
    if array.length = 2 then .ok array
    else .error "Only 2-Dimensional/Objective Function Supported"
  else .error "ValueError: setting an array element with a sequence"

/-- `Linear2DAllocation._senses` (`dmoop/linear/allocation.py`, lines
104-127): a scalar is broadcast via `np.ones(xs.shape[0]) * senses`, a
sequence is kept as given and merely reshaped to a column; unlike
`BaseConstruct._senses` there is no length assertion at all. -/
def makeSenses (nrows : ℕ) (senses : SensesArg) : List ℚ :=
  match senses with
  | .scalar v => List.replicate nrows v
  | .vector vs => vs

/-- `Linear2DAllocation.__init__` (lines 69-80) with the default
`drop_outliers = False`: validate `xs`, then build `senses` from
`self.xs.shape[0]`.  The only failure paths are the two inside `_xs`. -/
def mk (xs : List (List ℚ)) (senses : SensesArg) :
    Except String (List (List ℚ) × List ℚ) := do
  let a ← validateXs xs
  return (a, makeSenses a.length senses)

/-- Default `methods` argument of `delta`: `[np.mean] * self.N`. -/
def defaultMethods {q : ℕ} : Fin 2 → (Fin q → ℚ) → ℚ :=
  fun _ => npMean

/-- Default `factors` argument of `delta`: `np.ones(self.N)`. -/
def defaultFactors : Fin 2 → ℚ :=
  fun _ => 1

/-- `Linear2DAllocation.delta` (lines 162-199):
`np.abs([x - method(x) for method, x in zip(methods, xs)]) * factors`.
The absolute value is applied unconditionally; there is no `absolute`
keyword (unknown keyword arguments are silently dropped by `kwargs.get`). -/
def delta {q : ℕ} (xs : Fin 2 → Fin q → ℚ)
    (methods : Fin 2 → (Fin q → ℚ) → ℚ) (factors : Fin 2 → ℚ) :
    Fin 2 → Fin q → ℚ :=
  fun r i => |xs r i - methods r (xs r)| * factors r

/-- One entry of the per-row comprehension inside `beta` (line 233):
`1 / (x + d) if sense == -1 else x - d`, before the `np.inf` clamp.
`none` models the `+inf` that numpy's `1 / 0.0` produces. -/
def betaEntryRaw (sense x d : ℚ) : Option ℚ :=
  if sense = -1 then
    (if x + d = 0 then none else some (1 / (x + d)))
  else some (x - d)

/-- The same entry after `np.where(beta == np.inf, 0, beta)` (line 237):
an `inf` entry is replaced by `0`, a finite entry is kept. -/
def betaEntry (sense x d : ℚ) : ℚ :=
  (betaEntryRaw sense x d).getD 0

/-- `Linear2DAllocation.beta` (lines 202-239) with the default
`ndigits = None` (no rounding): per-row sense-adjusted contributions,
`inf` clamped to `0`, then `np.prod(beta, axis=0)` across the two rows. -/
def beta {q : ℕ} (xs : Fin 2 → Fin q → ℚ) (senses : Fin 2 → ℚ)
    (methods : Fin 2 → (Fin q → ℚ) → ℚ) (factors : Fin 2 → ℚ) :
    Fin q → ℚ :=
  fun i => ∏ r, betaEntry (senses r) (xs r i) (delta xs methods factors r i)

/-- `Linear2DAllocation.epsilon` (lines 242-249):
`beta / (method(xs[index]) / xs[index])` element-wise. -/
def epsilon {q : ℕ} (xs : Fin 2 → Fin q → ℚ) (senses : Fin 2 → ℚ)
    (methods : Fin 2 → (Fin q → ℚ) → ℚ) (factors : Fin 2 → ℚ)
    (index : Fin 2) (method : (Fin q → ℚ) → ℚ) : Fin q → ℚ :=
  fun i =>
    beta xs senses methods factors i / (method (xs index) / xs index i)

/-- `Linear2DAllocation.factor` (lines 252-274).  With the source's
defaults `mround = 0.05`, `appreciate = True`, `appreciate_index = 0`,
`appreciate_method = np.mean`:

* `_epsilon = appreciate_method(xs[appreciate_index])`, then
  `_epsilon = _epsilon / _x if appreciate else _beta`;
* `appreciated_value = _beta / _epsilon` (note: when `appreciate` is
  `False` this divides beta by itself, element-wise);
* `percentage_allocation = appreciated_value / appreciated_value.sum()`;
* `percentage_allocation_rounded = mround * np.round(percentage_allocation / mround)`.

No entry is clipped against any threshold and no degeneracy check is
performed anywhere in the method; the triple is always returned. -/
def factor {q : ℕ} (xs : Fin 2 → Fin q → ℚ) (senses : Fin 2 → ℚ)
    (methods : Fin 2 → (Fin q → ℚ) → ℚ) (factors : Fin 2 → ℚ)
    (mround : ℚ) (appreciate : Bool) (appreciateIndex : Fin 2)
    (appreciateMethod : (Fin q → ℚ) → ℚ) :
    (Fin q → ℚ) × (Fin q → ℚ) × (Fin q → ℚ) :=
  let x := xs appreciateIndex
  let b := beta xs senses methods factors
  let eps : Fin q → ℚ := fun i =>
    if appreciate then appreciateMethod x / x i else b i
  let appreciated : Fin q → ℚ := fun i => b i / eps i
  let share : Fin q → ℚ := fun i => appreciated i / (∑ j, appreciated j)
  let shareRounded : Fin q → ℚ := fun i =>
    mround * (roundHalfEven (share i / mround) : ℚ)
  (appreciated, share, shareRounded)

end Linear2DAllocation

namespace NonlinearFactor

/-- The deviation stage of `dmoop.factors.nonlinear.delta` (lines 71-79):
`xs - method(xs, axis=1)` per row (both the single-callable and the
iterable-of-callables dispatch reduce to applying one reduction per row). -/
def deviation {n q : ℕ} (xs : Fin n → Fin q → ℚ)
    (methods : Fin n → (Fin q → ℚ) → ℚ) : Fin n → Fin q → ℚ :=
  fun r i => xs r i - methods r (xs r)

/-- `factors = np.abs(factors) if absolute else factors` (line 81). -/
def stageAbs {n q : ℕ} (absolute : Bool) (f : Fin n → Fin q → ℚ) :
    Fin n → Fin q → ℚ :=
  if absolute then fun r i => |f r i| else f

/-- `factors = xs + factors if addonbase else factors` (line 82). -/
def stageBase {n q : ℕ} (addonbase : Bool) (xs f : Fin n → Fin q → ℚ) :
    Fin n → Fin q → ℚ :=
  if addonbase then fun r i => xs r i + f r i else f

/-- `factors = np.where(senses == -1, 1/factors, factors)` when
`reciprocal` (lines 84-86); no `inf` clamp exists here. -/
def stageRecip {n q : ℕ} (reciprocal : Bool) (senses : Fin n → ℚ)
    (f : Fin n → Fin q → ℚ) : Fin n → Fin q → ℚ :=
  if reciprocal then
    fun r i => if senses r = -1 then 1 / f r i else f r i
  else f

/-- `dmoop.factors.nonlinear.delta` (lines 11-88): deviation, optional
absolute value (default `True`), optional add-on-base (default `True`),
optional reciprocal on minimized rows (default `True`), then
`np.prod(factors, axis=0)`. -/
def delta {n q : ℕ} (xs : Fin n → Fin q → ℚ) (senses : Fin n → ℚ)
    (methods : Fin n → (Fin q → ℚ) → ℚ)
    (absolute addonbase reciprocal : Bool) : Fin q → ℚ :=
  fun i =>
    ∏ r,
      stageRecip reciprocal senses
        (stageBase addonbase xs (stageAbs absolute (deviation xs methods)))
        r i

end NonlinearFactor

/-! ## Concrete instances used by the claims -/

/-- The spec's concrete scenario input `xs = [[10, 20, 30], [5, 3, 1]]`. -/
def xs0 : Fin 2 → Fin 3 → ℚ := ![![10, 20, 30], ![5, 3, 1]]

/-- The spec's concrete scenario senses `[1, -1]`. -/
def senses0 : Fin 2 → ℚ := ![1, -1]

/-- A degenerate input: the second (maximized) row is identically zero, so
every beta entry, and hence every appreciated value, vanishes. -/
def xs4 : Fin 2 → Fin 2 → ℚ := ![![1, 1], ![0, 0]]

/-- Senses for `xs4`: maximize both rows. -/
def senses4 : Fin 2 → ℚ := ![1, 1]

/-- An input whose appreciated values are tiny (`10⁻¹²`) but nonzero. -/
def xs5 : Fin 2 → Fin 2 → ℚ :=
  ![![1 / 1000000000000, 1 / 1000000000000], ![1, 1]]

/-- An input whose first (maximized) row has a candidate far below the mean,
making that candidate's beta contribution, and hence its share, negative. -/
def xs7 : Fin 2 → Fin 3 → ℚ := ![![1, 10, 10], ![1, 1, 1]]

/-! ## Theorems settling the claims -/

open Linear2DAllocation in
/-- Claim C1 (counterexample).  On the spec's concrete scenario
`xs = [[10, 20, 30], [5, 3, 1]]`, `senses = [1, -1]`, with `factor`'s
default arguments (`mround = 0.05`, `appreciate = True`,
`appreciate_index = 0`, `appreciate_method = np.mean`), the middle
candidate's normalized share is `2/5 = 0.4`, which is not approximately
`0.5`: the claimed value `[0, 0.5, 0.5]` fails by `0.1`, far beyond the
spec's own `1e-9` tolerance. -/
theorem factor_concrete_share_ne_half :
    (Linear2DAllocation.factor xs0 senses0 defaultMethods defaultFactors
        (1 / 20) true 0 npMean).2.1 1 = 2 / 5 ∧
      ¬ |(2 / 5 : ℚ) - 1 / 2| ≤ 1 / 1000000000 := by
  constructor
  · norm_num [Linear2DAllocation.factor, Linear2DAllocation.beta, betaEntry,
      betaEntryRaw, Linear2DAllocation.delta, defaultMethods, defaultFactors,
      npMean, xs0, senses0, Fin.sum_univ_three, Fin.prod_univ_two]
  · have h : |(2 / 5 : ℚ) - 1 / 2| = 1 / 10 := by
      rw [abs_of_nonpos (by norm_num)]; norm_num
    rw [h]; norm_num

open Linear2DAllocation in
/-- Claim C1 (amended).  On the spec's concrete scenario the pipeline
produces `delta = [[10,0,10],[2,0,2]]`, per-row beta contributions
`[0,20,20]` and `[1/7,1/3,1/3]`, final beta `[0, 20/3, 20/3]` — exactly as
claimed — but the normalized share returned by `factor` with its default
arguments is `[0, 2/5, 3/5] = [0, 0.4, 0.6]`, because the default
appreciation divides beta by `mean(row0)/row0`, i.e. multiplies it by
`row0/mean(row0) = [1/2, 1, 3/2]`, before normalizing. -/
theorem pipeline_concrete_values :
    Linear2DAllocation.delta xs0 defaultMethods defaultFactors =
        ![![10, 0, 10], ![2, 0, 2]] ∧
      (∀ i, Linear2DAllocation.betaEntry (senses0 0) (xs0 0 i)
          (Linear2DAllocation.delta xs0 defaultMethods defaultFactors 0 i) =
            ![0, 20, 20] i) ∧
      (∀ i, Linear2DAllocation.betaEntry (senses0 1) (xs0 1 i)
          (Linear2DAllocation.delta xs0 defaultMethods defaultFactors 1 i) =
            ![1 / 7, 1 / 3, 1 / 3] i) ∧
      Linear2DAllocation.beta xs0 senses0 defaultMethods defaultFactors =
        ![0, 20 / 3, 20 / 3] ∧
      (Linear2DAllocation.factor xs0 senses0 defaultMethods defaultFactors
          (1 / 20) true 0 npMean).2.1 = ![0, 2 / 5, 3 / 5] := by
  refine ⟨?_, ?_, ?_, ?_, ?_⟩
  · funext r i
    fin_cases r <;> fin_cases i <;>
      norm_num [Linear2DAllocation.delta, defaultMethods, defaultFactors,
        npMean, xs0, Fin.sum_univ_three]
  · intro i
    fin_cases i <;>
      norm_num [betaEntry, betaEntryRaw, Linear2DAllocation.delta,
        defaultMethods, defaultFactors, npMean, xs0, senses0,
        Fin.sum_univ_three]
  · intro i
    fin_cases i <;>
      norm_num [betaEntry, betaEntryRaw, Linear2DAllocation.delta,
        defaultMethods, defaultFactors, npMean, xs0, senses0,
        Fin.sum_univ_three]
  · funext i
    fin_cases i <;>
      norm_num [Linear2DAllocation.beta, betaEntry, betaEntryRaw,
        Linear2DAllocation.delta, defaultMethods, defaultFactors, npMean,
        xs0, senses0, Fin.sum_univ_three, Fin.prod_univ_two]
  · funext i
    fin_cases i <;>
      norm_num [Linear2DAllocation.factor, Linear2DAllocation.beta, betaEntry,
        betaEntryRaw, Linear2DAllocation.delta, defaultMethods, defaultFactors,
        npMean, xs0, senses0, Fin.sum_univ_three, Fin.prod_univ_two]

open Linear2DAllocation in
/-- Claim C2 (confirmed).  `beta` computes each row's contribution as
`xs - delta` when the row's sense is `+1` and as `1/(xs + delta)` when the
sense is `-1`; the `+inf` arising from `xs + delta == 0` (modelled by
`betaEntryRaw = none`) is replaced by `0` before combining; and the result
is the element-wise product of the two per-row contribution vectors. -/
theorem beta_sense_rule {q : ℕ} (xs : Fin 2 → Fin q → ℚ) (senses : Fin 2 → ℚ)
    (methods : Fin 2 → (Fin q → ℚ) → ℚ) (factors : Fin 2 → ℚ) :
    (∀ (r : Fin 2) (i : Fin q), senses r = 1 →
        Linear2DAllocation.betaEntry (senses r) (xs r i)
            (Linear2DAllocation.delta xs methods factors r i) =
          xs r i - Linear2DAllocation.delta xs methods factors r i) ∧
      (∀ (r : Fin 2) (i : Fin q), senses r = -1 →
        xs r i + Linear2DAllocation.delta xs methods factors r i ≠ 0 →
        Linear2DAllocation.betaEntry (senses r) (xs r i)
            (Linear2DAllocation.delta xs methods factors r i) =
          1 / (xs r i + Linear2DAllocation.delta xs methods factors r i)) ∧
      (∀ (r : Fin 2) (i : Fin q), senses r = -1 →
        xs r i + Linear2DAllocation.delta xs methods factors r i = 0 →
        Linear2DAllocation.betaEntryRaw (senses r) (xs r i)
            (Linear2DAllocation.delta xs methods factors r i) = none ∧
          Linear2DAllocation.betaEntry (senses r) (xs r i)
            (Linear2DAllocation.delta xs methods factors r i) = 0) ∧
      (∀ i, Linear2DAllocation.beta xs senses methods factors i =
        ∏ r, Linear2DAllocation.betaEntry (senses r) (xs r i)
          (Linear2DAllocation.delta xs methods factors r i)) := by
  refine ⟨?_, ?_, ?_, fun i => rfl⟩
  · intro r i h
    norm_num [betaEntry, betaEntryRaw, h]
  · intro r i h hne
    norm_num [betaEntry, betaEntryRaw, h, hne]
  · intro r i h h0
    norm_num [betaEntry, betaEntryRaw, h, h0]

open Linear2DAllocation in
/-- Witness for `beta_sense_rule`, instantiated on the spec's concrete
scenario: a maximize-row entry and a minimize-row entry with nonzero
denominator. -/
theorem beta_sense_rule_witness :
    Linear2DAllocation.betaEntry (senses0 0) (xs0 0 2)
        (Linear2DAllocation.delta xs0 defaultMethods defaultFactors 0 2) =
      xs0 0 2 - Linear2DAllocation.delta xs0 defaultMethods defaultFactors 0 2 ∧
    Linear2DAllocation.betaEntry (senses0 1) (xs0 1 0)
        (Linear2DAllocation.delta xs0 defaultMethods defaultFactors 1 0) =
      1 / (xs0 1 0 +
        Linear2DAllocation.delta xs0 defaultMethods defaultFactors 1 0) :=
  ⟨(beta_sense_rule xs0 senses0 defaultMethods defaultFactors).1 0 2
      (by norm_num [senses0]),
    (beta_sense_rule xs0 senses0 defaultMethods defaultFactors).2.1 1 0
      (by norm_num [senses0])
      (by norm_num [Linear2DAllocation.delta, defaultMethods, defaultFactors,
        npMean, xs0, Fin.sum_univ_three])⟩

open Linear2DAllocation in
/-- Claim C3 (confirmed).  Whenever the appreciated (raw) values do not sum
to zero — the situation the spec labels `DegenerateAllocationError` — the
normalized share vector returned by `factor` sums to exactly `1` in exact
arithmetic, and in particular to `1` within the spec's `1e-9` tolerance. -/
theorem factor_share_sum_one {q : ℕ} (xs : Fin 2 → Fin q → ℚ)
    (senses : Fin 2 → ℚ) (methods : Fin 2 → (Fin q → ℚ) → ℚ)
    (factors : Fin 2 → ℚ) (mround : ℚ) (appreciate : Bool) (idx : Fin 2)
    (am : (Fin q → ℚ) → ℚ)
    (h : (∑ j, (Linear2DAllocation.factor xs senses methods factors mround
      appreciate idx am).1 j) ≠ 0) :
    (∑ i, (Linear2DAllocation.factor xs senses methods factors mround
        appreciate idx am).2.1 i) = 1 ∧
      |(∑ i, (Linear2DAllocation.factor xs senses methods factors mround
        appreciate idx am).2.1 i) - 1| ≤ 1 / 1000000000 := by
  have hshare : ∀ i, (Linear2DAllocation.factor xs senses methods factors
      mround appreciate idx am).2.1 i =
        (Linear2DAllocation.factor xs senses methods factors mround
          appreciate idx am).1 i /
        (∑ j, (Linear2DAllocation.factor xs senses methods factors mround
          appreciate idx am).1 j) := fun i => rfl
  have key : (∑ i, (Linear2DAllocation.factor xs senses methods factors
      mround appreciate idx am).2.1 i) = 1 := by
    calc
      (∑ i, (Linear2DAllocation.factor xs senses methods factors mround
          appreciate idx am).2.1 i) =
          ∑ i, (Linear2DAllocation.factor xs senses methods factors mround
            appreciate idx am).1 i /
            (∑ j, (Linear2DAllocation.factor xs senses methods factors mround
              appreciate idx am).1 j) := by
        exact Finset.sum_congr rfl fun i _ => hshare i
      _ = (∑ i, (Linear2DAllocation.factor xs senses methods factors mround
            appreciate idx am).1 i) /
            (∑ j, (Linear2DAllocation.factor xs senses methods factors mround
              appreciate idx am).1 j) := by
        rw [Finset.sum_div]
      _ = 1 := div_self h
  exact ⟨key, by rw [key]; norm_num⟩

open Linear2DAllocation in
/-- Witness for `factor_share_sum_one` on the spec's concrete scenario,
whose appreciated values sum to `50/3 ≠ 0`. -/
theorem factor_share_sum_one_witness :
    (∑ i, (Linear2DAllocation.factor xs0 senses0 defaultMethods
      defaultFactors (1 / 20) true 0 npMean).2.1 i) = 1 :=
  (factor_share_sum_one xs0 senses0 defaultMethods defaultFactors (1 / 20)
    true 0 npMean
    (by
      norm_num [Linear2DAllocation.factor, Linear2DAllocation.beta, betaEntry,
        betaEntryRaw, Linear2DAllocation.delta, defaultMethods, defaultFactors,
        npMean, xs0, senses0, Fin.sum_univ_three, Fin.prod_univ_two])).1

open Linear2DAllocation in
/-- Claim C4 (counterexample).  On `xs = [[1, 1], [0, 0]]` with
`senses = [1, 1]` every appreciated value is `0`, so their sum is `0`; yet
`factor` does not fail — it performs the normalization division anyway and
returns a triple.  (In numpy floats the shares are `0/0 = NaN` with a
`RuntimeWarning`; in this exact embedding division by zero yields `0`.
No `DegenerateAllocationError`, or any other degeneracy check, exists in
the source.) -/
theorem factor_degenerate_returns_triple :
    (∑ j, (Linear2DAllocation.factor xs4 senses4 defaultMethods
        defaultFactors (1 / 20) true 0 npMean).1 j) = 0 ∧
      (Linear2DAllocation.factor xs4 senses4 defaultMethods defaultFactors
        (1 / 20) true 0 npMean).1 = ![0, 0] ∧
      (Linear2DAllocation.factor xs4 senses4 defaultMethods defaultFactors
        (1 / 20) true 0 npMean).2.1 = ![0, 0] := by
  refine ⟨?_, ?_, ?_⟩
  · norm_num [Linear2DAllocation.factor, Linear2DAllocation.beta, betaEntry,
      betaEntryRaw, Linear2DAllocation.delta, defaultMethods, defaultFactors,
      npMean, xs4, senses4, Fin.sum_univ_two, Fin.prod_univ_two]
  · funext i
    fin_cases i <;>
      norm_num [Linear2DAllocation.factor, Linear2DAllocation.beta, betaEntry,
        betaEntryRaw, Linear2DAllocation.delta, defaultMethods, defaultFactors,
        npMean, xs4, senses4, Fin.sum_univ_two, Fin.prod_univ_two]
  · funext i
    fin_cases i <;>
      norm_num [Linear2DAllocation.factor, Linear2DAllocation.beta, betaEntry,
        betaEntryRaw, Linear2DAllocation.delta, defaultMethods, defaultFactors,
        npMean, xs4, senses4, Fin.sum_univ_two, Fin.prod_univ_two]

open Linear2DAllocation in
/-- Claim C4 (amended).  When the appreciated values sum to zero, `factor`
does not raise: it still returns its triple, whose share entries are the
undefined quotient `raw/0` (NaN in numpy floats, `0` under this exact
embedding's division-by-zero convention). -/
theorem factor_degenerate_share_zero {q : ℕ} (xs : Fin 2 → Fin q → ℚ)
    (senses : Fin 2 → ℚ) (methods : Fin 2 → (Fin q → ℚ) → ℚ)
    (factors : Fin 2 → ℚ) (mround : ℚ) (appreciate : Bool) (idx : Fin 2)
    (am : (Fin q → ℚ) → ℚ)
    (h : (∑ j, (Linear2DAllocation.factor xs senses methods factors mround
      appreciate idx am).1 j) = 0) :
    ∀ i, (Linear2DAllocation.factor xs senses methods factors mround
      appreciate idx am).2.1 i = 0 := by
  intro i
  have hshare : (Linear2DAllocation.factor xs senses methods factors mround
      appreciate idx am).2.1 i =
        (Linear2DAllocation.factor xs senses methods factors mround
          appreciate idx am).1 i /
        (∑ j, (Linear2DAllocation.factor xs senses methods factors mround
          appreciate idx am).1 j) := rfl
  rw [hshare, h, div_zero]

open Linear2DAllocation in
/-- Witness for `factor_degenerate_share_zero` on the all-zero-beta input
`xs4`. -/
theorem factor_degenerate_share_zero_witness :
    (Linear2DAllocation.factor xs4 senses4 defaultMethods defaultFactors
      (1 / 20) true 0 npMean).2.1 0 = 0 :=
  factor_degenerate_share_zero xs4 senses4 defaultMethods defaultFactors
    (1 / 20) true 0 npMean
    (by
      norm_num [Linear2DAllocation.factor, Linear2DAllocation.beta, betaEntry,
        betaEntryRaw, Linear2DAllocation.delta, defaultMethods, defaultFactors,
        npMean, xs4, senses4, Fin.sum_univ_two, Fin.prod_univ_two]) 0

open Linear2DAllocation in
/-- Claim C5 (counterexample).  On `xs = [[10⁻¹², 10⁻¹²], [1, 1]]` with
`senses = [1, 1]`, both appreciated (raw) entries equal `10⁻¹²`, which is
below the claimed `1e-9` clipping threshold, yet they are not replaced by
`0`: the entry survives unchanged and yields the share `1/2` instead of a
structural zero.  No clipping step exists in `factor`. -/
theorem factor_tiny_raw_not_clipped :
    (Linear2DAllocation.factor xs5 senses4 defaultMethods defaultFactors
        (1 / 20) true 0 npMean).1 0 = 1 / 1000000000000 ∧
      ((1 : ℚ) / 1000000000000 < 1 / 1000000000) ∧
      ((1 : ℚ) / 1000000000000 ≠ 0) ∧
      (Linear2DAllocation.factor xs5 senses4 defaultMethods defaultFactors
        (1 / 20) true 0 npMean).2.1 0 = 1 / 2 := by
  refine ⟨?_, by norm_num, by norm_num, ?_⟩
  · norm_num [Linear2DAllocation.factor, Linear2DAllocation.beta, betaEntry,
      betaEntryRaw, Linear2DAllocation.delta, defaultMethods, defaultFactors,
      npMean, xs5, senses4, Fin.sum_univ_two, Fin.prod_univ_two]
  · norm_num [Linear2DAllocation.factor, Linear2DAllocation.beta, betaEntry,
      betaEntryRaw, Linear2DAllocation.delta, defaultMethods, defaultFactors,
      npMean, xs5, senses4, Fin.sum_univ_two, Fin.prod_univ_two]

open Linear2DAllocation in
/-- Claim C5 (amended).  `factor` performs no clipping at all: the share of
every candidate is computed directly from the unclipped appreciated value,
and any nonzero raw entry — however far below `1e-9` — yields a nonzero
share whenever the raw values have a nonzero sum. -/
theorem factor_share_uses_unclipped_raw {q : ℕ} (xs : Fin 2 → Fin q → ℚ)
    (senses : Fin 2 → ℚ) (methods : Fin 2 → (Fin q → ℚ) → ℚ)
    (factors : Fin 2 → ℚ) (mround : ℚ) (appreciate : Bool) (idx : Fin 2)
    (am : (Fin q → ℚ) → ℚ) :
    (∀ i, (Linear2DAllocation.factor xs senses methods factors mround
        appreciate idx am).2.1 i =
      (Linear2DAllocation.factor xs senses methods factors mround
        appreciate idx am).1 i /
      (∑ j, (Linear2DAllocation.factor xs senses methods factors mround
        appreciate idx am).1 j)) ∧
    (∀ i, (Linear2DAllocation.factor xs senses methods factors mround
        appreciate idx am).1 i ≠ 0 →
      (∑ j, (Linear2DAllocation.factor xs senses methods factors mround
        appreciate idx am).1 j) ≠ 0 →
      (Linear2DAllocation.factor xs senses methods factors mround
        appreciate idx am).2.1 i ≠ 0) := by
  refine ⟨fun i => rfl, fun i h1 h2 => ?_⟩
  have hshare : (Linear2DAllocation.factor xs senses methods factors mround
      appreciate idx am).2.1 i =
        (Linear2DAllocation.factor xs senses methods factors mround
          appreciate idx am).1 i /
        (∑ j, (Linear2DAllocation.factor xs senses methods factors mround
          appreciate idx am).1 j) := rfl
  rw [hshare]
  exact div_ne_zero h1 h2

open Linear2DAllocation in
/-- Witness for `factor_share_uses_unclipped_raw`: the `10⁻¹²` raw entry of
`xs5` produces a nonzero share. -/
theorem factor_share_uses_unclipped_raw_witness :
    (Linear2DAllocation.factor xs5 senses4 defaultMethods defaultFactors
      (1 / 20) true 0 npMean).2.1 0 ≠ 0 :=
  (factor_share_uses_unclipped_raw xs5 senses4 defaultMethods defaultFactors
    (1 / 20) true 0 npMean).2 0
    (by
      norm_num [Linear2DAllocation.factor, Linear2DAllocation.beta, betaEntry,
        betaEntryRaw, Linear2DAllocation.delta, defaultMethods, defaultFactors,
        npMean, xs5, senses4, Fin.sum_univ_two, Fin.prod_univ_two])
    (by
      norm_num [Linear2DAllocation.factor, Linear2DAllocation.beta, betaEntry,
        betaEntryRaw, Linear2DAllocation.delta, defaultMethods, defaultFactors,
        npMean, xs5, senses4, Fin.sum_univ_two, Fin.prod_univ_two])

open Linear2DAllocation in
/-- Claim C6 (code bug, evaluated at the failing input).  With
`appreciate = False`, `factor` sets `_epsilon = _beta` and then computes
`appreciated_value = _beta / _epsilon`, i.e. it divides beta by itself:
on the spec's concrete scenario (`beta = [0, 20/3, 20/3]`) the raw values
come out as `1` at every candidate with nonzero beta (and `0/0`, NaN in
floats, where beta vanishes) — not as `beta` unchanged, which is what the
claim (and the `raw = beta` sentence of the spec) requires. -/
theorem factor_no_appreciate_self_division :
    (Linear2DAllocation.factor xs0 senses0 defaultMethods defaultFactors
        (1 / 20) false 0 npMean).1 1 = 1 ∧
      (Linear2DAllocation.factor xs0 senses0 defaultMethods defaultFactors
        (1 / 20) false 0 npMean).1 2 = 1 ∧
      Linear2DAllocation.beta xs0 senses0 defaultMethods defaultFactors 1 =
        20 / 3 ∧
      ((1 : ℚ) ≠ 20 / 3) := by
  refine ⟨?_, ?_, ?_, by norm_num⟩ <;>
    norm_num [Linear2DAllocation.factor, Linear2DAllocation.beta, betaEntry,
      betaEntryRaw, Linear2DAllocation.delta, defaultMethods, defaultFactors,
      npMean, xs0, senses0, Fin.sum_univ_three, Fin.prod_univ_two]

open Linear2DAllocation in
/-- Claim C7 (counterexample).  On `xs = [[1, 10, 10], [1, 1, 1]]` with
`senses = [1, 1]` the first candidate sits far below the first row's mean
`7`, so its beta contribution `x - |x - mean(x)| = 1 - 6 = -5` is negative
and its final normalized share is `-1/27 < 0`: `factor` can return negative
allocations. -/
theorem factor_negative_share :
    (Linear2DAllocation.factor xs7 senses4 defaultMethods defaultFactors
        (1 / 20) true 0 npMean).2.1 0 = -1 / 27 ∧
      ¬ (0 ≤ (-1 / 27 : ℚ)) := by
  refine ⟨?_, by norm_num⟩
  norm_num [Linear2DAllocation.factor, Linear2DAllocation.beta, betaEntry,
    betaEntryRaw, Linear2DAllocation.delta, defaultMethods, defaultFactors,
    npMean, xs7, senses4, Fin.sum_univ_three, Fin.prod_univ_two]

open Linear2DAllocation in
/-- Claim C7 (amended).  Shares are guaranteed nonnegative only under the
additional condition that every appreciated (raw) value is nonnegative and
that they have positive sum; then each share `raw i / ∑ raw` is
nonnegative.  (Without that condition a maximized objective entry below its
deviation produces a negative raw value and a negative share.) -/
theorem factor_share_nonneg_of_raw_nonneg {q : ℕ} (xs : Fin 2 → Fin q → ℚ)
    (senses : Fin 2 → ℚ) (methods : Fin 2 → (Fin q → ℚ) → ℚ)
    (factors : Fin 2 → ℚ) (mround : ℚ) (appreciate : Bool) (idx : Fin 2)
    (am : (Fin q → ℚ) → ℚ)
    (h1 : ∀ i, 0 ≤ (Linear2DAllocation.factor xs senses methods factors
      mround appreciate idx am).1 i)
    (h2 : 0 < ∑ j, (Linear2DAllocation.factor xs senses methods factors
      mround appreciate idx am).1 j) :
    ∀ i, 0 ≤ (Linear2DAllocation.factor xs senses methods factors mround
      appreciate idx am).2.1 i := by
  intro i
  have hshare : (Linear2DAllocation.factor xs senses methods factors mround
      appreciate idx am).2.1 i =
        (Linear2DAllocation.factor xs senses methods factors mround
          appreciate idx am).1 i /
        (∑ j, (Linear2DAllocation.factor xs senses methods factors mround
          appreciate idx am).1 j) := rfl
  rw [hshare]
  exact div_nonneg (h1 i) h2.le

open Linear2DAllocation in
/-- Witness for `factor_share_nonneg_of_raw_nonneg` on the spec's concrete
scenario, whose appreciated values `[0, 20/3, 10]` are nonnegative with
positive sum. -/
theorem factor_share_nonneg_of_raw_nonneg_witness :
    0 ≤ (Linear2DAllocation.factor xs0 senses0 defaultMethods defaultFactors
      (1 / 20) true 0 npMean).2.1 2 :=
  factor_share_nonneg_of_raw_nonneg xs0 senses0 defaultMethods defaultFactors
    (1 / 20) true 0 npMean
    (by
      intro i
      fin_cases i <;>
        norm_num [Linear2DAllocation.factor, Linear2DAllocation.beta,
          betaEntry, betaEntryRaw, Linear2DAllocation.delta, defaultMethods,
          defaultFactors, npMean, xs0, senses0, Fin.sum_univ_three,
          Fin.prod_univ_two])
    (by
      norm_num [Linear2DAllocation.factor, Linear2DAllocation.beta, betaEntry,
        betaEntryRaw, Linear2DAllocation.delta, defaultMethods, defaultFactors,
        npMean, xs0, senses0, Fin.sum_univ_three, Fin.prod_univ_two]) 2

/-- Claim C8 (counterexample).  The `Linear2DAllocation` constructor accepts
a senses sequence whose length (3) differs from the number of objective
rows (2) without any error: `_senses` merely reshapes the sequence, so no
validation failure occurs before the numeric stages.  Only
`BaseConstruct._senses` (used by the model variants, not by this class)
performs the length check. -/
theorem linear_senses_length_unchecked :
    Linear2DAllocation.mk [[10, 20, 30], [5, 3, 1]] (.vector [1, -1, 0]) =
        .ok ([[10, 20, 30], [5, 3, 1]], [1, -1, 0]) ∧
      ([(1 : ℚ), -1, 0]).length ≠ ([[(10 : ℚ), 20, 30], [5, 3, 1]]).length := by
  exact ⟨rfl, by simp⟩

/-- Claim C8 (amended).  The length check lives in `BaseConstruct._senses`
only: there a sequence of the wrong length fails the assertion with a
message reporting both the received and the expected counts, and a bare
scalar is broadcast to a length-`N` vector; `Linear2DAllocation._senses`
broadcasts scalars the same way but performs no length validation at all,
letting a mismatched sequence through unchanged. -/
theorem senses_validation_behavior :
    (∀ (n : ℕ) (vs : List ℚ), vs.length ≠ n →
        BaseConstruct.makeSenses n (.vector vs) =
          .error (sensesMismatchMsg vs.length n)) ∧
      (∀ (n : ℕ) (v : ℚ),
        BaseConstruct.makeSenses n (.scalar v) = .ok (List.replicate n v)) ∧
      (∀ (n : ℕ) (vs : List ℚ),
        Linear2DAllocation.makeSenses n (.vector vs) = vs) ∧
      (∀ (n : ℕ) (v : ℚ),
        Linear2DAllocation.makeSenses n (.scalar v) = List.replicate n v) := by
  refine ⟨fun n vs h => ?_, fun n v => rfl, fun n vs => rfl, fun n v => rfl⟩
  simp [BaseConstruct.makeSenses, h]

/-- Witness for `senses_validation_behavior`: the spec's own rejection
example, a length-2 senses sequence against `N = 3` features, produces the
assertion message naming both counts. -/
theorem senses_validation_behavior_witness :
    BaseConstruct.makeSenses 3 (.vector [1, -1]) =
      .error (sensesMismatchMsg 2 3) :=
  senses_validation_behavior.1 3 [1, -1] (by norm_num)

open Linear2DAllocation in
/-- Claim C9 (counterexample).  `Linear2DAllocation.delta` applies the
absolute value unconditionally: on the spec's concrete scenario the first
candidate's deviation from the row mean is `10 - 20 = -10`, yet the delta
matrix holds `10`.  There is no `absolute` keyword through which the signed
value could be requested. -/
theorem linear_delta_always_absolute :
    Linear2DAllocation.delta xs0 defaultMethods defaultFactors 0 0 = 10 ∧
      xs0 0 0 - npMean (xs0 0) = -10 ∧
      ((10 : ℚ) ≠ -10) := by
  refine ⟨?_, ?_, by norm_num⟩ <;>
    norm_num [Linear2DAllocation.delta, defaultMethods, defaultFactors,
      npMean, xs0, Fin.sum_univ_three]

open Linear2DAllocation NonlinearFactor in
/-- Claim C9 (amended).  The core pipeline's delta
(`Linear2DAllocation.delta`) always takes the absolute deviation — it has
no `absolute=False` mode.  The signed mode exists only in the standalone
`dmoop.factors.nonlinear.delta`: there `absolute=False` leaves the
deviation stage untouched (`absolute=True` takes its magnitude entrywise),
and with the remaining defaults (`addonbase=True`, `reciprocal=True`) the
signed deviation propagates into that function's add-on-base, reciprocal
and product stages. -/
theorem delta_absolute_mode_location :
    (∀ (q : ℕ) (xs : Fin 2 → Fin q → ℚ)
        (methods : Fin 2 → (Fin q → ℚ) → ℚ) (factors : Fin 2 → ℚ)
        (r : Fin 2) (i : Fin q),
      Linear2DAllocation.delta xs methods factors r i =
        |xs r i - methods r (xs r)| * factors r) ∧
      (∀ (n q : ℕ) (f : Fin n → Fin q → ℚ), stageAbs false f = f) ∧
      (∀ (n q : ℕ) (f : Fin n → Fin q → ℚ) (r : Fin n) (i : Fin q),
        stageAbs true f r i = |f r i|) ∧
      (∀ (n q : ℕ) (xs : Fin n → Fin q → ℚ) (senses : Fin n → ℚ)
          (methods : Fin n → (Fin q → ℚ) → ℚ) (i : Fin q),
        NonlinearFactor.delta xs senses methods false true true i =
          ∏ r,
            if senses r = -1 then
              1 / (xs r i + (xs r i - methods r (xs r)))
            else xs r i + (xs r i - methods r (xs r))) :=
  ⟨fun _ _ _ _ _ _ => rfl, fun _ _ _ => rfl, fun _ _ _ _ _ => rfl,
    fun _ _ _ _ _ _ => rfl⟩

/-- Claim C10 (confirmed).  Any rectangular input whose first dimension is
not exactly 2 makes the `Linear2DAllocation` constructor fail with the
source's assertion message, before any numeric stage exists. -/
theorem mk_rejects_non_two_rows (a : List (List ℚ)) (s : SensesArg)
    (hrect : isRectangular a = true) (hlen : a.length ≠ 2) :
    Linear2DAllocation.mk a s =
      .error "Only 2-Dimensional/Objective Function Supported" := by
  simp [Linear2DAllocation.mk, Linear2DAllocation.validateXs, hrect, hlen]

/-- Witness for `mk_rejects_non_two_rows`: a rectangular 3-row input is
rejected. -/
theorem mk_rejects_non_two_rows_witness :
    Linear2DAllocation.mk [[1, 2], [3, 4], [5, 6]] (.scalar 1) =
      .error "Only 2-Dimensional/Objective Function Supported" :=
  mk_rejects_non_two_rows [[1, 2], [3, 4], [5, 6]] (.scalar 1) (by rfl)
    (by simp)
